import Mathlib

/-!
Verification of `gotoalert/database.py` (GOTO-OBS/goto-alert).

This file gives a shallow embedding of the three database functions the
claims concern — `remove_previous_events`, `get_mpointing_info`,
`get_grid_tiles` und `add_to_database` — and proves or refutes the
claims about them.

Modelling conventions:
  * Python floats are modelled as `ℚ` (the claims only involve exact
    comparisons and sums of decimal literals).
  * Database rows are Lean structures; a table is a `List` of rows.
  * The storage engine (the external `obsdb` package) is modelled from the
    spec's storage-engine interface: a session holds a pending view of the
    database; `commit` persists the view; an exception aborts the session,
    the uncommitted view is discarded (rolled back) and the exception
    propagates to the caller.  `open_session` commits on clean exit
    (the spec's step "commit and stop" for early returns relies on this).
  * Python exceptions are values of `PyErr`; an unbound-local read is a
    `NameError`, exactly as in CPython.
-/

namespace GotoAlert

/-- One entry of `event.strategy['exposure_sets_dict']`. -/
structure ExpSetSpec where
  num_exp : Int
  exptime : ℚ
  filt : String
deriving DecidableEq

/-- The `event.strategy` mapping (spec §6: `on_grid` flag, `tile_limit`,
`prob_limit`, exposure-set list, cadence dict, constraints dict,
start/stop/rank).  Modelled as a well-typed record: all keys present with
values of the expected types (a missing key is the spec's
`MalformedStrategy` failure, raised before any write and outside the
scope of the claims below). -/
structure Strategy where
  on_grid : Bool
  tile_limit : Nat
  prob_limit : ℚ
  exposure_sets_dict : List ExpSetSpec
  start_time : String
  stop_time : String
  rank : Int
  /-- `cadence_dict['num_todo']` -/
  num_todo : Int
  /-- `cadence_dict['wait_time']`; "Can be a list of floats". -/
  wait_time : List ℚ
  max_sunalt : ℚ
  min_alt : ℚ
  min_moonsep : ℚ
  max_moon : String
deriving DecidableEq

/-- One row of the grid/skymap library's tile table
(`grid.get_table()`: tile-name, ra, dec, prob), together with the
per-pixel contour values `event.skymap.contours[tile]` for that tile.
The geometry itself (building a `SkyGrid`, applying the skymap) is the
external gototile library; its output is taken as data. -/
structure Tile where
  name : String
  ra : ℚ
  dec : ℚ
  prob : ℚ
  contours : List ℚ
deriving DecidableEq

/-- The alert `Event` object handed to the database layer (spec §6).
`tiles` is the tile table the external grid library produces for this
event's skymap on the current grid. -/
structure AlertEvent where
  name : String
  ivorn : String
  source : String
  type : String
  time : String
  coord_ra : ℚ
  coord_dec : ℚ
  skymap_url : Option String
  strategy : Strategy
  tiles : List Tile
deriving DecidableEq

/-! ### `get_mpointing_info` (database.py lines 75-121) -/

/-- An ExposureSet parameter dict (`exp_data`). -/
structure ExpData where
  num_exp : Int
  exptime : ℚ
  filt : String
  binning : Nat
  imgtype : String
deriving DecidableEq

/-- The Mpointing parameter dict (`mp_data`). -/
structure MPData where
  too : Bool
  min_time : ℚ
  valid_time : Int
  start_time : String
  stop_time : String
  start_rank : Int
  num_todo : Int
  wait_time : List ℚ
  max_sunalt : ℚ
  min_alt : ℚ
  min_moonsep : ℚ
  max_moon : String
deriving DecidableEq

/-- `get_mpointing_info(event)`: format the Mpointing and ExposureSet
information from the event's strategy (database.py lines 75-121). -/
def get_mpointing_info (event : AlertEvent) : MPData × List ExpData :=
  let expsets := event.strategy.exposure_sets_dict.map fun s =>
    { num_exp := s.num_exp
      exptime := s.exptime
      filt := s.filt
      -- These are always the same
      binning := 1
      imgtype := "SCIENCE" }
  let mp_data : MPData :=
    { too := true
      -- minimum pointing time is based on the ExposureSet +30s for readout
      min_time := (expsets.map fun e => (e.exptime + 30) * (e.num_exp : ℚ)).sum
      valid_time := -1
      start_time := event.strategy.start_time
      stop_time := event.strategy.stop_time
      start_rank := event.strategy.rank
      num_todo := event.strategy.num_todo
      wait_time := event.strategy.wait_time
      max_sunalt := event.strategy.max_sunalt
      min_alt := event.strategy.min_alt
      min_moonsep := event.strategy.min_moonsep
      max_moon := event.strategy.max_moon }
  (mp_data, expsets)

/-! ### `get_grid_tiles` (database.py lines 153-191) -/

/-- `np.mean` of a tile's contour values (sum / length; the empty case is
guarded separately, since `np.mean([])` is NaN and NaN < 0.9 is False). -/
def meanContour (t : Tile) : ℚ := t.contours.sum / (t.contours.length : ℚ)

/-- The primary containment mask for one tile:
`np.mean(event.skymap.contours[tile]) < 0.9`. -/
def passesMeanMask (t : Tile) : Bool :=
  !t.contours.isEmpty && decide (meanContour t < 9/10)

/-- Insert a tile into an ascending-by-prob sorted list (stable). -/
def insertAsc (t : Tile) : List Tile → List Tile
  | [] => [t]
  | u :: us => if t.prob ≤ u.prob then t :: u :: us else u :: insertAsc t us

/-- `table.sort('prob')`: sort ascending by the prob column. -/
def sortAsc : List Tile → List Tile
  | [] => []
  | t :: ts => insertAsc t (sortAsc ts)

/-- `table[mask]`: boolean-mask row selection. -/
def maskSelect : List Tile → List Bool → List Tile
  | [], _ => []
  | _, [] => []
  | t :: ts, b :: bs => if b then t :: maskSelect ts bs else maskSelect ts bs

/-- `get_grid_tiles(event, db_grid)` (database.py lines 153-191), as a
function of the tile table the external grid library returns.  Masks the
table on the mean-contour test, falling back to `prob > 0.9` when no
tile passes, and returns the masked table sorted descending by prob. -/
def get_grid_tiles (tiles : List Tile) : List Tile :=
  let mask := tiles.map passesMeanMask
  let finalMask :=
    if mask.count true < 1 then
      -- no tile has a mean contour of < 90%; instead mask to any tiles
      -- with a contained probability of > 90%
      tiles.map fun t => decide (t.prob > 9/10)
    else mask
  let masked_table := maskSelect tiles finalMask
  -- masked_table.sort('prob'); masked_table.reverse()
  (sortAsc masked_table).reverse

/-! ### Database model (the `obsdb` row types and tables this pipeline uses) -/

/-- A persisted `db.Event` row (database.py lines 201-207). -/
structure DBEvent where
  name : String
  ivorn : String
  source : String
  event_type : String
  time : String
  skymap : Option String
deriving DecidableEq

/-- A persisted `db.Grid` row (only the fields this pipeline touches;
the FOV/overlap/algorithm fields are consumed by the external SkyGrid
constructor). -/
structure Grid where
  id : Nat
  name : String
  ra_fov : ℚ
  dec_fov : ℚ
  ra_overlap : ℚ
  dec_overlap : ℚ
  algorithm : String
deriving DecidableEq

/-- A persisted `db.GridTile` row, looked up by (grid, name). -/
structure GridTile where
  grid_id : Nat
  name : String
deriving DecidableEq

/-- A `db.User` row. -/
structure User where
  username : String
  password : String
  full_name : String
deriving DecidableEq

/-- A `db.Survey` row (database.py lines 241-243). -/
structure Survey where
  name : String
  grid_id : Nat
  event : DBEvent
deriving DecidableEq

/-- A `db.SurveyTile` row (database.py lines 278-280): the per-tile weight,
linked to the Survey of this call and to one GridTile. -/
structure SurveyTile where
  weight : ℚ
  grid_tile : Option GridTile
deriving DecidableEq

/-- A `db.Pointing` row.  `event`, `grid_tile` and `survey_tile` start
unset and are assigned by the caller (database.py lines 303-306). -/
structure Pointing where
  object_name : String
  status : String
  event : Option DBEvent
  grid_tile : Option GridTile
  survey_tile : Option SurveyTile
deriving DecidableEq

/-- A `db.Mpointing` row, with its owned ExposureSet and Pointing rows. -/
structure Mpointing where
  object_name : String
  ra : Option ℚ
  dec : Option ℚ
  data : MPData
  status : String
  user : String
  event : DBEvent
  grid_tile : Option GridTile
  survey_tile : Option SurveyTile
  exposure_sets : List ExpData
  pointings : List Pointing
deriving DecidableEq

/-- The observation database: one list per table. -/
structure DB where
  events : List DBEvent
  grids : List Grid
  grid_tiles : List GridTile
  users : List User
  surveys : List Survey
  mpointings : List Mpointing
  pointings : List Pointing
deriving DecidableEq

/-- Python exceptions that the modelled code can raise. -/
inductive PyErr where
  /-- reading a local variable that was never assigned -/
  | nameError (n : String)
  | valueError (msg : String)
  /-- sqlalchemy `Query.one_or_none` with more than one result -/
  | multipleResultsFound
  /-- `session.commit()` failing at the storage layer -/
  | commitFailed
deriving DecidableEq

/-! ### `remove_previous_events` (database.py lines 18-72) -/

/-- The query of lines 26-28: Events matching the incoming event's
(name, source). -/
def matchedEvents (event : AlertEvent) (db : DB) : List DBEvent :=
  db.events.filter fun e => e.name == event.name && e.source == event.source

/-- Does an Mpointing status match the dedup query of lines 46-48? -/
def mpStatusMatch (s : String) : Bool :=
  s == "scheduled" || s == "unscheduled"

/-- One iteration of the loop of lines 42-68: soft-delete the matching
Mpointings and pending Pointings of one prior Event (the per-iteration
`session.commit()` persists exactly these changes). -/
def deleteForEvent (e : DBEvent) (db : DB) : DB :=
  { db with
    mpointings := db.mpointings.map fun mp =>
      if mp.event == e && mpStatusMatch mp.status then
        { mp with status := "deleted" } else mp
    pointings := db.pointings.map fun p =>
      if p.event == some e && p.status == "pending" then
        { p with status := "deleted" } else p }

/-- The aggregate per-Mpointing effect of the dedup loop, for comparison
with the fold below: an Mpointing belonging to one of the prior Events
whose status is `scheduled` or `unscheduled` becomes `deleted`; every
other Mpointing is unchanged. -/
def dedupMpUpdate (evs : List DBEvent) (mp : Mpointing) : Mpointing :=
  if mp.event ∈ evs ∧ (mp.status = "scheduled" ∨ mp.status = "unscheduled") then
    { mp with status := "deleted" } else mp

/-- The aggregate per-Pointing effect of the dedup loop: a `pending`
Pointing belonging to one of the prior Events becomes `deleted`; every
other Pointing (running, completed, aborted, interrupted, expired,
already deleted, or of another event) is unchanged. -/
def dedupPtUpdate (evs : List DBEvent) (p : Pointing) : Pointing :=
  if (∃ e ∈ evs, p.event = some e) ∧ p.status = "pending" then
    { p with status := "deleted" } else p

/-- `remove_previous_events(event, log)` (database.py lines 18-72).
Returns the exception raised (if any) and the persisted database after
the call; on the raise path nothing has been committed, so the session
rolls back to the unchanged input state. -/
def remove_previous_events (event : AlertEvent) (db : DB) : Option PyErr × DB :=
  let db_events := matchedEvents event db
  if db_events.isEmpty then
    -- Nothing to worry about, it's a new event
    (none, db)
  else if db_events.any fun e => e.ivorn == event.ivorn then
    -- IVORN should be a unique column so we can't add this one
    (some (.valueError ("ivorn=" ++ event.ivorn ++ " already exists in the database")), db)
  else
    (none, db_events.foldl (fun d e => deleteForEvent e d) db)

/-! ### `add_to_database` (database.py lines 194-319) -/

def DEFAULT_USER : String := "goto"
def DEFAULT_PW : String := "gotoobs"
def DEFAULT_NAME : String := "GOTO automated alerts"

/-- The `db.Event` row constructed at lines 201-207. -/
def eventRow (event : AlertEvent) : DBEvent :=
  { name := event.name
    ivorn := event.ivorn
    source := event.source
    event_type := event.type
    time := event.time
    skymap := event.skymap_url }

/-- `get_grid(session)` (lines 133-150): all Grid rows, take the latest,
or raise ValueError if there are none. -/
def get_grid (db : DB) : Except PyErr Grid :=
  match db.grids.getLast? with
  | none => .error (.valueError "No defined Grids found!")
  | some g => .ok g

/-- `get_user(session)` (lines 124-130): look the default user up by
name; on the not-found ValueError construct a fresh User record. -/
def get_user (db : DB) : User :=
  match db.users.find? (fun u => u.username == DEFAULT_USER) with
  | some u => u
  | none => { username := DEFAULT_USER, password := DEFAULT_PW, full_name := DEFAULT_NAME }

/-- sqlalchemy `Query.one_or_none` on the GridTile lookup of lines
272-275: `none` for no match, the row for one match, and
MultipleResultsFound for more. -/
def one_or_none (rows : List GridTile) : Except PyErr (Option GridTile) :=
  match rows with
  | [] => .ok none
  | [r] => .ok (some r)
  | _ => .error .multipleResultsFound

/-- The final tile table of lines 221-228: the masked table truncated to
`tile_limit` rows, then filtered on `prob_limit` when that is positive. -/
def final_tile_table (event : AlertEvent) : List Tile :=
  let masked_table := get_grid_tiles event.tiles
  let tile_table := masked_table.take event.strategy.tile_limit
  if event.strategy.prob_limit > 0 then
    tile_table.filter fun t => decide (t.prob > event.strategy.prob_limit)
  else tile_table

/-- The local variables `db_grid_tile` and `db_survey_tile` as the tile
loop of lines 270-293 leaves them.  The surrounding `Option` in the
functions below models the unbound state: on the untiled path the loop
never runs, the names are never assigned, and reading them at lines
305-306 raises `NameError`. -/
structure TileLoopVars where
  db_grid_tile : Option GridTile
  db_survey_tile : SurveyTile
deriving DecidableEq

/-- The tile loop of lines 270-293: for each surviving tile, look up its
GridTile, create a SurveyTile carrying the tile's weight (the `prob`
column), and create an Mpointing named `<event>_<tilename>` with null
RA/Dec linked to that GridTile/SurveyTile.  Returns the Mpointing list
and the loop variables as left after the last iteration. -/
def tile_loop (event : AlertEvent) (grid_tiles : List GridTile) (db_grid : Grid)
    (db_event : DBEvent) (db_user : User) (mp_data : MPData) :
    List Tile → Except PyErr (List Mpointing × Option TileLoopVars)
  | [] => .ok ([], none)
  | t :: rest =>
    match one_or_none (grid_tiles.filter fun gt =>
        gt.grid_id == db_grid.id && gt.name == t.name) with
    | .error e => .error e
    | .ok db_grid_tile =>
      let db_survey_tile : SurveyTile := { weight := t.prob, grid_tile := db_grid_tile }
      let db_mpointing : Mpointing :=
        { object_name := event.name ++ "_" ++ t.name
          ra := none
          dec := none
          data := mp_data
          status := "unscheduled"
          user := db_user.username
          event := db_event
          grid_tile := db_grid_tile
          survey_tile := some db_survey_tile
          exposure_sets := []
          pointings := [] }
      match tile_loop event grid_tiles db_grid db_event db_user mp_data rest with
      | .error e => .error e
      | .ok (mps, vars) =>
        .ok (db_mpointing :: mps, some (vars.getD ⟨db_grid_tile, db_survey_tile⟩))

/-- The single Mpointing of the untiled branch (lines 252-267): explicit
RA/Dec from the event's coordinate, and — note — its ExposureSets are
already created and attached here (lines 261-264). -/
def untiled_mpointing (event : AlertEvent) (db_event : DBEvent) (db_user : User)
    (mp_data : MPData) (expsets : List ExpData) : Mpointing :=
  { object_name := event.name
    ra := some event.coord_ra
    dec := some event.coord_dec
    data := mp_data
    status := "unscheduled"
    user := db_user.username
    event := db_event
    grid_tile := none
    survey_tile := none
    exposure_sets := expsets
    pointings := [] }

/-- Modelled from the spec: `obsdb`'s `Mpointing.get_next_pointing`
synthesizes the Mpointing's first Pointing ("pre-empting the normal
scheduler so the very first visit is already queued at insertion time").
Per the source comment at line 302 the link columns use IDs the new rows
do not have yet, so `event`/`grid_tile`/`survey_tile` start unset and
are assigned by the caller at lines 304-306; a fresh Pointing is
`pending`. -/
def get_next_pointing (mp : Mpointing) : Pointing :=
  { object_name := mp.object_name
    status := "pending"
    event := none
    grid_tile := none
    survey_tile := none }

/-- Lines 296-299: append one fresh ExposureSet row per derived
exposure-set spec to the Mpointing. -/
def attach_exposure_sets (expsets : List ExpData) (mp : Mpointing) : Mpointing :=
  { mp with exposure_sets := mp.exposure_sets ++ expsets }

/-- One iteration of the per-Mpointing loop of lines 295-307: attach the
ExposureSets, synthesize the first Pointing, then link it to `db_event`
and to whatever `db_grid_tile`/`db_survey_tile` currently hold — the
values left over from the tile loop (NameError if they were never
bound). -/
def attach_one (expsets : List ExpData) (db_event : DBEvent)
    (vars : Option TileLoopVars) (mp : Mpointing) : Except PyErr Mpointing :=
  let mp1 := attach_exposure_sets expsets mp
  let p0 := get_next_pointing mp1
  let p1 : Pointing := { p0 with event := some db_event }
  match vars with
  | none => .error (.nameError "db_grid_tile")
  | some v =>
    let p2 : Pointing := { p1 with grid_tile := v.db_grid_tile
                                   survey_tile := some v.db_survey_tile }
    .ok { mp1 with pointings := mp1.pointings ++ [p2] }

/-- The loop of lines 295-307 over all Mpointings. -/
def attach_loop (expsets : List ExpData) (db_event : DBEvent)
    (vars : Option TileLoopVars) : List Mpointing → Except PyErr (List Mpointing)
  | [] => .ok []
  | mp :: rest =>
    match attach_one expsets db_event vars mp with
    | .error e => .error e
    | .ok mp2 =>
      match attach_loop expsets db_event vars rest with
      | .error e => .error e
      | .ok mps2 => .ok (mp2 :: mps2)

/-- `db.insert_items(session, mpointings)` (line 311): the Mpointing rows
and, by relationship cascade, their owned Pointing rows join the session
view. -/
def insert_mpointings (view : DB) (mps : List Mpointing) : DB :=
  { view with
    mpointings := view.mpointings ++ mps
    pointings := view.pointings ++ (mps.map Mpointing.pointings).flatten }

/-- The body of `add_to_database` run on the session view (lines
196-311): everything up to, but not including, the final commit. -/
def add_body (event : AlertEvent) (db : DB) : Except PyErr DB :=
  -- Get Mpointing and ExposureSet infomation (line 198)
  let info := get_mpointing_info event
  let mp_data := info.1
  let expsets := info.2
  -- Create Event and add it to the session (lines 201-209)
  let db_event := eventRow event
  let view0 : DB := { db with events := db.events ++ [db_event] }
  -- If it's a retraction event that's all we need to do (lines 212-213)
  if event.type == "GW_RETRACTION" then .ok view0
  else if event.strategy.on_grid then
    match get_grid view0 with
    | .error e => .error e
    | .ok db_grid =>
      let tile_table := final_tile_table event
      if tile_table.isEmpty then
        -- Lines 235-238: no tiles passed filtering, warn and exit.  The
        -- debug line evaluates `max(event.full_table['prob'])`, which
        -- raises ValueError when the grid table itself is empty.
        if event.tiles.isEmpty then .error (.valueError "max() arg is an empty sequence")
        else .ok view0
      else
        -- Create Survey (lines 241-245)
        let db_survey : Survey := { name := event.name, grid_id := db_grid.id, event := db_event }
        let view1 : DB := { view0 with surveys := view0.surveys ++ [db_survey] }
        -- Get the database User, or make it if it doesn't exist (line 248)
        let db_user := get_user view1
        match tile_loop event view1.grid_tiles db_grid db_event db_user mp_data tile_table with
        | .error e => .error e
        | .ok (mps, vars) =>
          match attach_loop expsets db_event vars mps with
          | .error e => .error e
          | .ok mps2 => .ok (insert_mpointings view1 mps2)
  else
    let db_user := get_user view0
    -- Create a single Mpointing (lines 252-267)
    let db_mpointing := untiled_mpointing event db_event db_user mp_data expsets
    -- The loop variables of the tile loop were never bound on this path
    match attach_loop expsets db_event none [db_mpointing] with
    | .error e => .error e
    | .ok mps2 => .ok (insert_mpointings view0 mps2)

/-- Session and transaction semantics, modelled from the spec's
storage-engine interface: run the body on the session view; if the body
raises, the uncommitted view is discarded (rollback) and the exception
propagates; on clean exit the session commits, which either persists the
view wholly or itself fails (`commit_ok = false`), in which case the
handler of lines 314-319 rolls back to the persisted state and
re-raises. -/
def run_session (commit_ok : Bool) (db : DB) (body : DB → Except PyErr DB) :
    Option PyErr × DB :=
  match body db with
  | .error e => (some e, db)
  | .ok view => if commit_ok then (none, view) else (some .commitFailed, db)

/-- `add_to_database(event, log)` (database.py lines 194-319).  Returns
the exception raised (if any) and the persisted database afterwards. -/
def add_to_database (commit_ok : Bool) (event : AlertEvent) (db : DB) :
    Option PyErr × DB :=
  run_session commit_ok db (add_body event)

/-! ### Concrete fixtures used by the witnesses and counterexamples -/

/-- A grid-based strategy; the exposure sets are the spec's worked
example `[(num_exp=2, exptime=60), (num_exp=1, exptime=10)]`. -/
def exStrategy : Strategy :=
  { on_grid := true
    tile_limit := 50
    prob_limit := 0
    exposure_sets_dict := [⟨2, 60, "L"⟩, ⟨1, 10, "L"⟩]
    start_time := "2020-02-13 10:00:00"
    stop_time := "2020-02-16 10:00:00"
    rank := 2
    num_todo := 99
    wait_time := [60]
    max_sunalt := -12
    min_alt := 30
    min_moonsep := 10
    max_moon := "B" }

/-- Two tiles, both passing the mean-contour mask, with distinct
probabilities. -/
def exTileA : Tile := { name := "T0001", ra := 10, dec := 20, prob := 3/4, contours := [1/2, 1/2] }

def exTileB : Tile := { name := "T0002", ra := 30, dec := 40, prob := 1/2, contours := [1/4] }

def exGrid : Grid :=
  { id := 1, name := "allsky", ra_fov := 8, dec_fov := 8
    ra_overlap := 1/10, dec_overlap := 1/10, algorithm := "minverlap" }

/-- A database holding one Grid with one GridTile per fixture tile. -/
def exDB : DB :=
  { events := []
    grids := [exGrid]
    grid_tiles := [⟨1, "T0001"⟩, ⟨1, "T0002"⟩]
    users := []
    surveys := []
    mpointings := []
    pointings := [] }

/-- An empty database. -/
def exDBEmpty : DB :=
  { events := [], grids := [], grid_tiles := [], users := []
    surveys := [], mpointings := [], pointings := [] }

/-- A tiled (on-grid) event whose skymap covers the two fixture tiles. -/
def exEventTiled : AlertEvent :=
  { name := "GW160102"
    ivorn := "ivo://gwnet/LVC#GW160102-1"
    source := "LVC"
    type := "GW"
    time := "2020-02-13 09:58:00"
    coord_ra := 25/2
    coord_dec := -34
    skymap_url := some "skymap.fits"
    strategy := exStrategy
    tiles := [exTileA, exTileB] }

/-- An untiled event (strategy `on_grid` false). -/
def exEventUntiled : AlertEvent :=
  { exEventTiled with
    name := "GRB 200213A"
    ivorn := "ivo://gcn/SWIFT#GRB200213A-1"
    source := "SWIFT"
    strategy := { exStrategy with on_grid := false }
    tiles := [] }

/-- An untiled event with a single exposure-set spec. -/
def exEventOneSpec : AlertEvent :=
  { exEventUntiled with
    strategy := { exStrategy with on_grid := false, exposure_sets_dict := [⟨1, 60, "L"⟩] } }

/-- A GW retraction notice. -/
def exEventRetraction : AlertEvent :=
  { exEventTiled with type := "GW_RETRACTION" }

/-- A previously ingested notice for the same (name, source) as
`exEventTiled`, with a different ivorn. -/
def exPriorEvent : DBEvent :=
  { name := "GW160102"
    ivorn := "ivo://gwnet/LVC#GW160102-0"
    source := "LVC"
    event_type := "GW"
    time := "2020-02-12 09:58:00"
    skymap := none }

def exMPData : MPData := (get_mpointing_info exEventTiled).1

/-- A scheduled Mpointing of the prior event. -/
def exMpScheduled : Mpointing :=
  { object_name := "GW160102"
    ra := some 12
    dec := some 5
    data := exMPData
    status := "scheduled"
    user := "goto"
    event := exPriorEvent
    grid_tile := none
    survey_tile := none
    exposure_sets := []
    pointings := [] }

/-- A pending Pointing of the prior event. -/
def exPtPending : Pointing :=
  { object_name := "GW160102"
    status := "pending"
    event := some exPriorEvent
    grid_tile := none
    survey_tile := none }

/-- A running Pointing of the prior event. -/
def exPtRunning : Pointing :=
  { exPtPending with status := "running" }

/-- A database holding the prior event and its scheduling rows. -/
def exDBDedup : DB :=
  { events := [exPriorEvent]
    grids := []
    grid_tiles := []
    users := []
    surveys := []
    mpointings := [exMpScheduled]
    pointings := [exPtPending, exPtRunning] }

/-- The incoming `exEventTiled` notice resubmitted with the ivorn that is
already in `exDBDedup`. -/
def exEventDup : AlertEvent :=
  { exEventTiled with ivorn := "ivo://gwnet/LVC#GW160102-0" }

/-- A well-localised (GRB-like) skymap: three tiles whose mean contour
values all sit at or above 0.9, with only the middle tile containing
more than 90% of the probability. -/
def exTileU1 : Tile := { name := "T0699", ra := 99, dec := 0, prob := 1/10, contours := [97/100] }

def exTileF0 : Tile := { name := "T0700", ra := 100, dec := 0, prob := 19/20, contours := [19/20] }

def exTileU2 : Tile := { name := "T0701", ra := 101, dec := 0, prob := 1/20, contours := [1] }

/-! ## Theorems -/

/-- The fixture skymap resolves to both fixture tiles, best first. -/
theorem fttEx : final_tile_table exEventTiled = [exTileA, exTileB] := by
  norm_num [final_tile_table, exEventTiled, exStrategy, get_grid_tiles,
    passesMeanMask, meanContour, exTileA, exTileB, maskSelect, sortAsc, insertAsc]

/-- C1: the claim fails on the code.  On the tiled path with the two
fixture tiles, the insertion succeeds, the first Mpointing is linked to
GridTile `T0001`, but its first Pointing is linked to GridTile `T0002` —
the loop variables `db_grid_tile`/`db_survey_tile` read at lines 305-306
still hold the values of the LAST iteration of the tile loop, so every
first Pointing is linked to the last tile's records, not to its parent
Mpointing's. -/
theorem pointing_linked_to_last_tile :
    (add_to_database true exEventTiled exDB).1 = none ∧
    ((add_to_database true exEventTiled exDB).2.mpointings.map fun mp =>
        (mp.grid_tile, mp.pointings.map Pointing.grid_tile))
      = [(some ⟨1, "T0001"⟩, [some ⟨1, "T0002"⟩]),
         (some ⟨1, "T0002"⟩, [some ⟨1, "T0002"⟩])] := by
  refine ⟨?_, ?_⟩ <;> ·
    simp only [add_to_database, run_session, add_body, fttEx]
    rfl

/-- C2: any exception during the write phase leaves the persisted
database exactly as it was (nothing before the final commit persists
anything, and a failing commit is rolled back), and the exception is
re-raised. -/
theorem write_phase_exception_rolls_back (commit_ok : Bool) (event : AlertEvent)
    (db : DB) (e : PyErr) (h : (add_to_database commit_ok event db).1 = some e) :
    (add_to_database commit_ok event db).2 = db := by
  simp only [add_to_database, run_session] at h ⊢
  cases hb : add_body event db with
  | error e2 => simp [hb]
  | ok view =>
    simp only [hb] at h ⊢
    cases commit_ok with
    | true => simp at h
    | false => simp

/-- C2 witness: a failing commit on a retraction insert re-raises and
persists nothing. -/
theorem write_phase_exception_rolls_back_witness :
    (add_to_database false exEventRetraction exDBEmpty).1 = some .commitFailed ∧
    (add_to_database false exEventRetraction exDBEmpty).2 = exDBEmpty :=
  ⟨rfl, write_phase_exception_rolls_back false exEventRetraction exDBEmpty .commitFailed rfl⟩

/-- C4: the claim is right but the code is wrong.  On the untiled path
(strategy `on_grid` false) the single Mpointing is built, but creating
its first Pointing reads the never-assigned loop variable `db_grid_tile`
at line 305 and raises NameError, so no Pointing is ever attached and
nothing at all is persisted. -/
theorem untiled_path_raises_name_error :
    add_to_database true exEventUntiled exDBEmpty
      = (some (.nameError "db_grid_tile"), exDBEmpty) := rfl

/-- C5: the claim fails on the code for the untiled case.  With one
derived exposure-set spec, the untiled Mpointing already owns one
ExposureSet when it is built (lines 261-264), and the per-Mpointing loop
(lines 296-299) appends the specs again, leaving two ExposureSet rows
for the single spec. -/
theorem untiled_exposure_sets_duplicated :
    (get_mpointing_info exEventOneSpec).2.length = 1 ∧
    (attach_exposure_sets (get_mpointing_info exEventOneSpec).2
        (untiled_mpointing exEventOneSpec (eventRow exEventOneSpec) (get_user exDBEmpty)
          (get_mpointing_info exEventOneSpec).1
          (get_mpointing_info exEventOneSpec).2)).exposure_sets.length = 2 := by
  decide

/-- C7: a `GW_RETRACTION` event inserts the Event row, commits, and
stops — no MetaPointing or Survey rows are created, whatever the
strategy mapping contains. -/
theorem retraction_inserts_event_only (event : AlertEvent) (db : DB)
    (h : event.type = "GW_RETRACTION") :
    add_to_database true event db
      = (none, { db with events := db.events ++ [eventRow event] }) := by
  simp [add_to_database, run_session, add_body, h]

/-- C7 witness: the concrete retraction notice. -/
theorem retraction_inserts_event_only_witness :
    add_to_database true exEventRetraction exDBEmpty
      = (none, { exDBEmpty with events := exDBEmpty.events ++ [eventRow exEventRetraction] }) :=
  retraction_inserts_event_only exEventRetraction exDBEmpty rfl

/-- Membership in the (name, source) match query. -/
theorem mem_matchedEvents (event : AlertEvent) (db : DB) (e : DBEvent) :
    e ∈ matchedEvents event db ↔
      e ∈ db.events ∧ e.name = event.name ∧ e.source = event.source := by
  simp [matchedEvents, List.mem_filter, and_assoc]

/-- C3: `remove_previous_events` raises if and only if some persisted
Event shares the incoming event's (name, source) and its ivorn, and in
the raise case the database is returned unchanged (the raise happens
before any status write or commit). -/
theorem duplicate_ivorn_error_iff (event : AlertEvent) (db : DB) :
    ((remove_previous_events event db).1.isSome ↔
      ∃ e ∈ db.events, e.name = event.name ∧ e.source = event.source ∧ e.ivorn = event.ivorn)
    ∧ ((remove_previous_events event db).1.isSome
        → (remove_previous_events event db).2 = db) := by
  by_cases h1 : (matchedEvents event db).isEmpty
  · have hnil : matchedEvents event db = [] := List.isEmpty_iff.mp h1
    have hres : remove_previous_events event db = (none, db) := by
      simp [remove_previous_events, h1]
    rw [hres]
    refine ⟨⟨fun hf => by simp at hf, ?_⟩, fun hf => by simp at hf⟩
    rintro ⟨e, he, hn, hs, hi⟩
    have hmem : e ∈ matchedEvents event db := (mem_matchedEvents event db e).mpr ⟨he, hn, hs⟩
    rw [hnil] at hmem
    simp at hmem
  · by_cases h2 : ((matchedEvents event db).any fun e => e.ivorn == event.ivorn) = true
    · have hres : remove_previous_events event db
          = (some (.valueError ("ivorn=" ++ event.ivorn ++ " already exists in the database")), db) := by
        simp [remove_previous_events, h1, h2]
      rw [hres]
      refine ⟨⟨fun _ => ?_, fun _ => rfl⟩, fun _ => rfl⟩
      obtain ⟨e, he, hiv⟩ := List.any_eq_true.mp h2
      obtain ⟨hev, hn, hs⟩ := (mem_matchedEvents event db e).mp he
      exact ⟨e, hev, hn, hs, by simpa using hiv⟩
    · have hres : remove_previous_events event db
          = (none, (matchedEvents event db).foldl (fun d e => deleteForEvent e d) db) := by
        simp [remove_previous_events, h1, h2]
      rw [hres]
      refine ⟨⟨fun hf => by simp at hf, ?_⟩, fun hf => by simp at hf⟩
      rintro ⟨e, he, hn, hs, hi⟩
      exact absurd (List.any_eq_true.mpr
        ⟨e, (mem_matchedEvents event db e).mpr ⟨he, hn, hs⟩, by simp [hi]⟩) h2

/-- C3 witness: resubmitting the already-ingested ivorn raises and
leaves the database unchanged. -/
theorem duplicate_ivorn_error_iff_witness :
    (remove_previous_events exEventDup exDBDedup).1.isSome = true ∧
    (remove_previous_events exEventDup exDBDedup).2 = exDBDedup :=
  ⟨by decide, (duplicate_ivorn_error_iff exEventDup exDBDedup).2 (by decide)⟩

/-- One dedup-loop step commutes into the aggregate Pointing update. -/
theorem dedupPt_cons (e : DBEvent) (evs : List DBEvent) (p : Pointing) :
    dedupPtUpdate evs
        (if p.event == some e && p.status == "pending" then { p with status := "deleted" } else p)
      = dedupPtUpdate (e :: evs) p := by
  by_cases hA : p.event = some e ∧ p.status = "pending"
  · have hb : (p.event == some e && p.status == "pending") = true := by
      simp [hA.1, hA.2]
    have hn : ¬((∃ x ∈ evs, ({ p with status := "deleted" } : Pointing).event = some x) ∧
        ({ p with status := "deleted" } : Pointing).status = "pending") := by
      rintro ⟨-, hc⟩
      simp at hc
    have hp : (∃ x ∈ e :: evs, p.event = some x) ∧ p.status = "pending" :=
      ⟨⟨e, List.mem_cons_self e evs, hA.1⟩, hA.2⟩
    rw [if_pos hb]
    unfold dedupPtUpdate
    rw [if_neg hn, if_pos hp]
  · have hb : ¬((p.event == some e && p.status == "pending") = true) := by
      simpa [Bool.and_eq_true] using hA
    rw [if_neg hb]
    unfold dedupPtUpdate
    by_cases hC : (∃ x ∈ evs, p.event = some x) ∧ p.status = "pending"
    · obtain ⟨⟨x, hx, hpx⟩, hst⟩ := hC
      rw [if_pos ⟨⟨x, hx, hpx⟩, hst⟩, if_pos ⟨⟨x, List.mem_cons_of_mem e hx, hpx⟩, hst⟩]
    · have hn2 : ¬((∃ x ∈ e :: evs, p.event = some x) ∧ p.status = "pending") := by
        rintro ⟨⟨x, hx, hpx⟩, hst⟩
        rcases List.mem_cons.mp hx with rfl | hx2
        · exact hA ⟨hpx, hst⟩
        · exact hC ⟨⟨x, hx2, hpx⟩, hst⟩
      rw [if_neg hC, if_neg hn2]

/-- One dedup-loop step commutes into the aggregate Mpointing update. -/
theorem dedupMp_cons (e : DBEvent) (evs : List DBEvent) (mp : Mpointing) :
    dedupMpUpdate evs
        (if mp.event == e && mpStatusMatch mp.status then { mp with status := "deleted" } else mp)
      = dedupMpUpdate (e :: evs) mp := by
  unfold dedupMpUpdate mpStatusMatch
  split_ifs <;> simp_all

/-- The per-event dedup loop equals one aggregate update of each table. -/
theorem foldl_deleteForEvent (evs : List DBEvent) (db : DB) :
    evs.foldl (fun d e => deleteForEvent e d) db
      = { db with mpointings := db.mpointings.map (dedupMpUpdate evs)
                  pointings := db.pointings.map (dedupPtUpdate evs) } := by
  induction evs generalizing db with
  | nil =>
    have h1 : dedupMpUpdate ([] : List DBEvent) = fun mp => mp :=
      funext fun mp => by simp [dedupMpUpdate]
    have h2 : dedupPtUpdate ([] : List DBEvent) = fun p => p :=
      funext fun p => by simp [dedupPtUpdate]
    rw [List.foldl_nil, h1, h2, List.map_id', List.map_id']
  | cons e evs ih =>
    rw [List.foldl_cons, ih]
    simp only [deleteForEvent, List.map_map, Function.comp_def]
    rw [funext fun mp => dedupMp_cons e evs mp, funext fun p => dedupPt_cons e evs p]

/-- C6: with prior (name, source) matches and no ivorn collision, the
dedup run raises nothing and performs exactly the soft-deletes: every
Mpointing of a matched prior Event with status `scheduled`/`unscheduled`
becomes `deleted`, every `pending` Pointing of a matched prior Event
becomes `deleted`, everything else (including `running` Pointings) is
untouched, the Events table is untouched, and no row is removed. -/
theorem dedup_soft_deletes_pending_work (event : AlertEvent) (db : DB)
    (h1 : matchedEvents event db ≠ [])
    (h2 : ∀ e ∈ matchedEvents event db, e.ivorn ≠ event.ivorn) :
    (remove_previous_events event db).1 = none ∧
    (remove_previous_events event db).2.events = db.events ∧
    (remove_previous_events event db).2.mpointings
      = db.mpointings.map (dedupMpUpdate (matchedEvents event db)) ∧
    (remove_previous_events event db).2.pointings
      = db.pointings.map (dedupPtUpdate (matchedEvents event db)) ∧
    (remove_previous_events event db).2.mpointings.length = db.mpointings.length ∧
    (remove_previous_events event db).2.pointings.length = db.pointings.length := by
  have hie : ¬((matchedEvents event db).isEmpty = true) := by
    simpa [List.isEmpty_iff] using h1
  have hany : ¬(((matchedEvents event db).any fun e => e.ivorn == event.ivorn) = true) := by
    intro hcontra
    obtain ⟨e, he, hiv⟩ := List.any_eq_true.mp hcontra
    exact h2 e he (by simpa using hiv)
  have hres : remove_previous_events event db
      = (none, (matchedEvents event db).foldl (fun d e => deleteForEvent e d) db) := by
    simp [remove_previous_events, hie, hany]
  rw [hres, foldl_deleteForEvent]
  exact ⟨rfl, rfl, rfl, rfl, by simp, by simp⟩

/-- C6 witness: the spec §8 scenario — a prior entry with one scheduled
Mpointing, one pending Pointing and one running Pointing; after the
updated notice, the first two are `deleted` and the running one is
untouched. -/
theorem dedup_soft_deletes_pending_work_witness :
    (remove_previous_events exEventTiled exDBDedup).1 = none ∧
    (remove_previous_events exEventTiled exDBDedup).2.mpointings
      = [{ exMpScheduled with status := "deleted" }] ∧
    (remove_previous_events exEventTiled exDBDedup).2.pointings
      = [{ exPtPending with status := "deleted" }, exPtRunning] := by
  have h := dedup_soft_deletes_pending_work exEventTiled exDBDedup (by decide) (by decide)
  refine ⟨h.1, ?_, ?_⟩
  · rw [h.2.2.1]
    rfl
  · rw [h.2.2.2.1]
    rfl

/-- Membership is invariant under `insertAsc`. -/
theorem mem_insertAsc (t x : Tile) (l : List Tile) : x ∈ insertAsc t l ↔ x = t ∨ x ∈ l := by
  induction l with
  | nil => simp [insertAsc]
  | cons u us ih =>
    unfold insertAsc
    split_ifs with h
    · simp [List.mem_cons]
    · simp only [List.mem_cons, ih]
      tauto

/-- Membership is invariant under `sortAsc`. -/
theorem mem_sortAsc (x : Tile) (l : List Tile) : x ∈ sortAsc l ↔ x ∈ l := by
  induction l with
  | nil => simp [sortAsc]
  | cons t ts ih => simp [sortAsc, mem_insertAsc, ih]

/-- Selecting by an elementwise boolean mask is filtering. -/
theorem maskSelect_map (p : Tile → Bool) (l : List Tile) : maskSelect l (l.map p) = l.filter p := by
  induction l with
  | nil => rfl
  | cons t ts ih =>
    simp only [List.map_cons, maskSelect, List.filter_cons]
    by_cases h : p t = true
    · simp [h, ih]
    · simp [h, ih]

/-- C8: a tile whose mean contour value is below 0.9 passes the
containment mask and appears in the resolved table; and when no tile
passes the mean test while exactly one tile has `prob` above 0.9, the
fallback mask makes the resolved table exactly that one tile. -/
theorem tile_mask_mean_and_fallback (tiles l1 l2 : List Tile) (t0 : Tile) :
    (∀ t ∈ tiles, t.contours ≠ [] → meanContour t < 9/10 → t ∈ get_grid_tiles tiles)
    ∧ (tiles = l1 ++ t0 :: l2
        → (∀ t ∈ tiles, passesMeanMask t = false)
        → t0.prob > 9/10
        → (∀ t ∈ l1 ++ l2, ¬(t.prob > 9/10))
        → get_grid_tiles tiles = [t0]) := by
  constructor
  · intro t ht hne hlt
    have hpass : passesMeanMask t = true := by
      simp [passesMeanMask, List.isEmpty_iff, hne, hlt]
    have hcnt : ¬((tiles.map passesMeanMask).count true < 1) := by
      rw [Nat.lt_one_iff, List.count_eq_zero]
      intro habs
      exact habs (List.mem_map.mpr ⟨t, ht, hpass⟩)
    simp only [get_grid_tiles]
    rw [if_neg hcnt, maskSelect_map]
    simp [List.mem_reverse, mem_sortAsc, List.mem_filter, ht, hpass]
  · rintro rfl hall hp ho
    have hcnt : (((l1 ++ t0 :: l2).map passesMeanMask).count true < 1) := by
      rw [Nat.lt_one_iff, List.count_eq_zero]
      intro hmem
      obtain ⟨t, ht, hpt⟩ := List.mem_map.mp hmem
      rw [hall t ht] at hpt
      exact Bool.false_ne_true hpt
    simp only [get_grid_tiles]
    rw [if_pos hcnt, maskSelect_map]
    have h1 : l1.filter (fun t => decide (t.prob > 9/10)) = [] := by
      rw [List.filter_eq_nil_iff]
      intro a ha
      simpa using ho a (List.mem_append_left _ ha)
    have h2 : l2.filter (fun t => decide (t.prob > 9/10)) = [] := by
      rw [List.filter_eq_nil_iff]
      intro a ha
      simpa using ho a (List.mem_append_right _ ha)
    rw [List.filter_append, List.filter_cons, h1, h2, if_pos (by simpa using hp)]
    rfl

/-- C8 witness: the three-tile GRB-like skymap resolves to exactly the
single high-probability tile via the fallback mask. -/
theorem tile_mask_mean_and_fallback_witness :
    get_grid_tiles [exTileU1, exTileF0, exTileU2] = [exTileF0] :=
  (tile_mask_mean_and_fallback [exTileU1, exTileF0, exTileU2] [exTileU1] [exTileU2] exTileF0).2
    rfl
    (by
      intro t ht
      simp only [List.mem_cons, List.not_mem_nil, or_false] at ht
      rcases ht with rfl | rfl | rfl <;>
        norm_num [passesMeanMask, meanContour, exTileU1, exTileF0, exTileU2])
    (by norm_num [exTileF0])
    (by
      intro t ht
      simp only [List.cons_append, List.nil_append, List.mem_cons, List.not_mem_nil, or_false] at ht
      rcases ht with rfl | rfl <;> norm_num [exTileU1, exTileU2])

/-- `one_or_none` on at most one row returns that row (or `none`). -/
theorem one_or_none_of_short (rows : List GridTile) (h : rows.length ≤ 1) :
    one_or_none rows = .ok rows.head? := by
  match rows with
  | [] => rfl
  | [r] => rfl
  | a :: b :: rest => simp at h

/-- With unambiguous GridTile lookups, the tile loop succeeds, creating
one Mpointing per tile, and leaves its loop variables bound whenever it
ran at least once. -/
theorem tile_loop_spec (event : AlertEvent) (gts : List GridTile) (g : Grid)
    (ev : DBEvent) (u : User) (d : MPData) :
    ∀ tts : List Tile,
      (∀ t ∈ tts, (gts.filter fun gt => gt.grid_id == g.id && gt.name == t.name).length ≤ 1) →
      ∃ mps vars, tile_loop event gts g ev u d tts = .ok (mps, vars)
        ∧ mps.length = tts.length ∧ (tts ≠ [] → vars.isSome = true) := by
  intro tts
  induction tts with
  | nil => exact fun _ => ⟨[], none, rfl, rfl, by simp⟩
  | cons t rest ih =>
    intro h
    obtain ⟨mps, vars, heq, hlen, _⟩ := ih fun x hx => h x (List.mem_cons_of_mem t hx)
    have hone : one_or_none (gts.filter fun gt => gt.grid_id == g.id && gt.name == t.name)
        = .ok (gts.filter fun gt => gt.grid_id == g.id && gt.name == t.name).head? :=
      one_or_none_of_short _ (h t (List.mem_cons_self t rest))
    have hstep : ∃ mp1 v1, tile_loop event gts g ev u d (t :: rest) = .ok (mp1 :: mps, some v1) := by
      simp only [tile_loop]
      rw [hone, heq]
      exact ⟨_, _, rfl⟩
    obtain ⟨mp1, v1, hstep⟩ := hstep
    exact ⟨mp1 :: mps, some v1, hstep, by simp [hlen], by simp⟩

/-- With the loop variables bound, the per-Mpointing loop succeeds and
preserves the number of Mpointings. -/
theorem attach_loop_some (es : List ExpData) (ev : DBEvent) (v : TileLoopVars) :
    ∀ mps : List Mpointing, ∃ mps2,
      attach_loop es ev (some v) mps = .ok mps2 ∧ mps2.length = mps.length := by
  intro mps
  induction mps with
  | nil => exact ⟨[], rfl, rfl⟩
  | cons mp rest ih =>
    obtain ⟨mps2, heq, hlen⟩ := ih
    have hstep : ∃ mp2, attach_loop es ev (some v) (mp :: rest) = .ok (mp2 :: mps2) := by
      simp only [attach_loop, attach_one]
      rw [heq]
      exact ⟨_, rfl⟩
    obtain ⟨mp2, hstep⟩ := hstep
    exact ⟨mp2 :: mps2, hstep, by simp [hlen]⟩

/-- C9: on the tiled path (with unambiguous GridTile lookups and a
non-empty grid table), the run succeeds and creates exactly one
Mpointing per tile of the final tile table, whose size is capped by
`tile_limit`; a positive `prob_limit` keeps only tiles above it; and an
empty final table returns cleanly with only the Event row added — no
exception, no Survey, no Mpointings. -/
theorem tiled_plan_respects_limits (event : AlertEvent) (db : DB) (g : Grid)
    (hT : event.type ≠ "GW_RETRACTION")
    (hG : event.strategy.on_grid = true)
    (hg : db.grids.getLast? = some g)
    (hu : ∀ t ∈ final_tile_table event,
      (db.grid_tiles.filter fun gt => gt.grid_id == g.id && gt.name == t.name).length ≤ 1)
    (hne : event.tiles ≠ []) :
    ((add_to_database true event db).1 = none
      ∧ (add_to_database true event db).2.mpointings.length
          = db.mpointings.length + (final_tile_table event).length)
    ∧ (final_tile_table event).length ≤ event.strategy.tile_limit
    ∧ (event.strategy.prob_limit > 0
        → ∀ t ∈ final_tile_table event, t.prob > event.strategy.prob_limit)
    ∧ (final_tile_table event = []
        → add_to_database true event db
            = (none, { db with events := db.events ++ [eventRow event] })) := by
  have hb : (final_tile_table event).length ≤ event.strategy.tile_limit := by
    unfold final_tile_table
    split_ifs
    · exact le_trans (List.length_filter_le _ _) (List.length_take_le _ _)
    · exact List.length_take_le _ _
  have hc : event.strategy.prob_limit > 0
      → ∀ t ∈ final_tile_table event, t.prob > event.strategy.prob_limit := by
    intro hpl t ht
    unfold final_tile_table at ht
    rw [if_pos hpl] at ht
    simpa using (List.mem_filter.mp ht).2
  have hbeq : (event.type == "GW_RETRACTION") = false := by
    simp [hT]
  have hgg : get_grid { db with events := db.events ++ [eventRow event] } = .ok g := by
    simp [get_grid, hg]
  by_cases hempty : final_tile_table event = []
  · have hisE : (final_tile_table event).isEmpty = true := by simp [hempty]
    have htne : ¬(event.tiles.isEmpty = true) := fun hc2 => hne (List.isEmpty_iff.mp hc2)
    have hbody : add_body event db = .ok { db with events := db.events ++ [eventRow event] } := by
      simp only [add_body]
      simp [hbeq, hG, hgg, hisE, htne]
    refine ⟨⟨?_, ?_⟩, hb, hc, fun _ => ?_⟩
    · simp [add_to_database, run_session, hbody]
    · simp [add_to_database, run_session, hbody, hempty]
    · simp [add_to_database, run_session, hbody]
  · have hisE : ¬((final_tile_table event).isEmpty = true) :=
      fun hc2 => hempty (List.isEmpty_iff.mp hc2)
    obtain ⟨mps, vars, hloop, hlen, hvs⟩ := tile_loop_spec event db.grid_tiles g (eventRow event)
      (get_user { events := db.events ++ [eventRow event], grids := db.grids
                  grid_tiles := db.grid_tiles, users := db.users
                  surveys := db.surveys ++ [{ name := event.name, grid_id := g.id, event := eventRow event }]
                  mpointings := db.mpointings, pointings := db.pointings })
      (get_mpointing_info event).1 (final_tile_table event) hu
    obtain ⟨v, hv⟩ := Option.isSome_iff_exists.mp (hvs hempty)
    rw [hv] at hloop
    obtain ⟨mps2, hattach, hlen2⟩ := attach_loop_some (get_mpointing_info event).2 (eventRow event) v mps
    have hbody : add_body event db = .ok (insert_mpointings
        { events := db.events ++ [eventRow event], grids := db.grids
          grid_tiles := db.grid_tiles, users := db.users
          surveys := db.surveys ++ [{ name := event.name, grid_id := g.id, event := eventRow event }]
          mpointings := db.mpointings, pointings := db.pointings } mps2) := by
      simp only [add_body]
      simp only [hbeq, Bool.false_eq_true, if_false, hG, if_true, hgg, hisE]
      rw [hloop]
      simp only [hattach]
    refine ⟨⟨?_, ?_⟩, hb, hc, fun hcontra => absurd hcontra hempty⟩
    · simp [add_to_database, run_session, hbody]
    · simp only [add_to_database, run_session, hbody]
      simp [insert_mpointings, hlen2, hlen]

/-- C9 witness: the two-tile fixture (tile limit 50, no probability
floor) yields a clean run with exactly two Mpointings. -/
theorem tiled_plan_respects_limits_witness :
    (add_to_database true exEventTiled exDB).1 = none ∧
    (add_to_database true exEventTiled exDB).2.mpointings.length = 2 := by
  have h := tiled_plan_respects_limits exEventTiled exDB exGrid (by decide) rfl rfl
    (by rw [fttEx]; decide) (by decide)
  refine ⟨h.1.1, ?_⟩
  rw [h.1.2, fttEx]
  rfl

/-- C10: `min_time` is the sum over the strategy's exposure sets of
`(exptime + 30) * num_exp`; on the spec's example sets
`[(num_exp=2, exptime=60), (num_exp=1, exptime=10)]` it is 220. -/
theorem min_time_formula (event : AlertEvent) :
    (get_mpointing_info event).1.min_time
      = (event.strategy.exposure_sets_dict.map fun s =>
          (s.exptime + 30) * (s.num_exp : ℚ)).sum
    ∧ (get_mpointing_info exEventTiled).1.min_time = 220 := by
  constructor
  · simp only [get_mpointing_info, List.map_map]
    rfl
  · norm_num [get_mpointing_info, exEventTiled, exStrategy]

end GotoAlert
